import Mathlib

/-!
Verification development for the beeprepared job-orchestration and
artifact-derivation pipeline (Python backend).

The Python source is shallowly embedded:
- pydantic models become Lean structures (UUIDs become Nat identifiers,
  JSON dicts become structures restricted to the keys the code reads);
- raised exceptions become `Except String`;
- the external collaborators (data store lookups, text generators, binary
  renderers) become explicit function-valued fields of an environment
  record, since they are outside the verified core;
- the CoreMerger LLM leaves run in their deterministic fallback mode
  (`self.model = None`, the GEMINI_API_KEY-absent path of
  backend/services/core_merger.py); the hierarchical control flow of
  `merge_cores` is independent of that choice.
-/

namespace BeePrepared

/-! ## Knowledge core data model (backend/core/knowledge_core.py) -/

structure Concept where
  name : String
  description : String
  importance_score : Int
  deriving Repr, DecidableEq

structure Definition where
  term : String
  definition : String
  context : String
  deriving Repr, DecidableEq

structure Example where
  description : String
  relevance : String
  deriving Repr, DecidableEq

structure KeyFact where
  fact : String
  category : String
  deriving Repr, DecidableEq

structure Subsection where
  title : String
  summary : String
  deriving Repr, DecidableEq

structure Section where
  title : String
  summary : String
  subsections : List Subsection
  deriving Repr, DecidableEq

structure NoteContent where
  heading : String
  bullets : List String
  deriving Repr, DecidableEq

structure KnowledgeCore where
  title : String
  summary : String
  concepts : List Concept
  section_hierarchy : List Section
  notes : List NoteContent
  definitions : List Definition
  examples : List Example
  key_facts : List KeyFact
  deriving Repr, DecidableEq

/-! ## CoreMerger (backend/services/core_merger.py) -/

structure CoreSummary where
  source_title : String
  key_concepts : List String
  key_facts : List String
  summary : String
  token_estimate : Nat
  deriving Repr, DecidableEq

structure CombinedContext where
  source_count : Nat
  source_titles : List String
  unified_summary : String
  all_concepts : List String
  all_facts : List String
  conflict_notes : Option String
  deriving Repr, DecidableEq

/-- Order-preserving first-occurrence deduplication with an accumulator of
already-seen keys; `pyDedup []` is Python `list(dict.fromkeys(xs))` as used
in `CoreMerger._fallback_merge`. -/
def pyDedup (seen : List String) : List String → List String
  | [] => []
  | x :: xs => if x ∈ seen then pyDedup seen xs else x :: pyDedup (x :: seen) xs

/-- CoreMerger._fallback_summarize: deterministic truncation used when the
summarization collaborator is unavailable (and hence also the behaviour of
`summarize_core` in that mode). -/
def summarize_core (core : KnowledgeCore) : CoreSummary :=
  { source_title := core.title
  , key_concepts := (core.concepts.take 7).map Concept.name
  , key_facts := (core.key_facts.take 7).map KeyFact.fact
  , summary := if core.summary = "" then "Summary unavailable." else core.summary.take 500
  , token_estimate := 200 }

/-- CoreMerger._fallback_merge: deduplicate concept and fact lists keeping
the order of first appearance, concatenate the abstracts, truncate. -/
def fallback_merge (summaries : List CoreSummary) : CombinedContext :=
  let all_concepts := pyDedup [] (summaries.map CoreSummary.key_concepts).flatten
  let all_facts := pyDedup [] (summaries.map CoreSummary.key_facts).flatten
  { source_count := summaries.length
  , source_titles := summaries.map CoreSummary.source_title
  , unified_summary := (String.intercalate " " (summaries.map CoreSummary.summary)).take 500
  , all_concepts := all_concepts.take 15
  , all_facts := all_facts.take 15
  , conflict_notes := none }

/-- CoreMerger.merge_summaries: raises on an empty input, passes a single
summary through unchanged, and otherwise merges (deterministic fallback
path, the merge collaborator being unavailable). -/
def merge_summaries : List CoreSummary → Except String CombinedContext
  | [] => .error "Cannot merge zero summaries"
  | [s] => .ok
      { source_count := 1
      , source_titles := [s.source_title]
      , unified_summary := s.summary
      , all_concepts := s.key_concepts
      , all_facts := s.key_facts
      , conflict_notes := none }
  | ss => .ok (fallback_merge ss)

/-- The adjacent groups of (at most) two that the loop
`for i in range(0, len(summaries), 2): summaries[i:i+2]` walks through. -/
def pairChunks : List α → List (List α)
  | [] => []
  | [x] => [[x]]
  | x :: y :: rest => [x, y] :: pairChunks rest

/-- The re-wrap of an intermediate CombinedContext as a synthetic CoreSummary
for the final merge (merge_cores, lines 277-286): concepts and facts are
truncated to their first 7 entries. -/
def rewrapContext (ctx : CombinedContext) : CoreSummary :=
  { source_title := "Merged: " ++ String.intercalate ", " ctx.source_titles
  , key_concepts := ctx.all_concepts.take 7
  , key_facts := ctx.all_facts.take 7
  , summary := ctx.unified_summary
  , token_estimate := 300 }

/-- CoreMerger.merge_cores: raise on zero cores, pass a single core through
summarization, merge up to three summaries directly, and for four or more
do one pairwise pass over adjacent groups of two followed by a final merge
of the re-wrapped intermediates. -/
def merge_cores : List KnowledgeCore → Except String CombinedContext
  | [] => .error "Cannot merge zero cores"
  | [c] => merge_summaries [summarize_core c]
  | cores =>
    let summaries := cores.map summarize_core
    if cores.length ≤ 3 then
      merge_summaries summaries
    else do
      let intermediate ← (pairChunks summaries).mapM merge_summaries
      merge_summaries (intermediate.map rewrapContext)

/-- The lengths of the summary lists handed to the successive
`merge_summaries` calls that `merge_cores` performs, in call order: one
call of size 1 for a single core, one direct call for two or three cores,
and for four or more cores the pairwise calls (the chunk sizes) followed by
the final call on the re-wrapped intermediates (one per chunk). All chunks
are non-empty, so no pairwise call raises and the final call is reached. -/
def merge_call_sizes : List KnowledgeCore → List Nat
  | [] => []
  | [_] => [1]
  | cores =>
    if cores.length ≤ 3 then [cores.length]
    else
      ((pairChunks (cores.map summarize_core)).map List.length)
        ++ [(pairChunks (cores.map summarize_core)).length]

/-! ## Facts about the merge tree shape -/

theorem pairChunks_length (l : List α) : (pairChunks l).length = (l.length + 1) / 2 := by
  induction l using pairChunks.induct with
  | case1 => simp [pairChunks]
  | case2 x => simp [pairChunks]
  | case3 x y rest ih => simp [pairChunks, ih]; omega

theorem pairChunks_sizes (l : List α) : ∀ c ∈ pairChunks l, c.length ≤ 2 := by
  induction l using pairChunks.induct with
  | case1 => simp [pairChunks]
  | case2 x => simp [pairChunks]
  | case3 x y rest ih =>
    intro c hc
    simp only [pairChunks, List.mem_cons] at hc
    rcases hc with h | h
    · simp [h]
    · exact ih c h

theorem pyDedup_eq_self (l : List String) : ∀ (seen : List String),
    (∀ x ∈ l, x ∉ seen) → l.Nodup → pyDedup seen l = l := by
  induction l with
  | nil => intro seen _ _; rfl
  | cons x xs ih =>
    intro seen h1 h2
    rw [pyDedup, if_neg (h1 x (by simp))]
    rw [List.nodup_cons] at h2
    refine congrArg (x :: ·) (ih (x :: seen) ?_ h2.2)
    intro y hy
    simp only [List.mem_cons, not_or]
    exact ⟨fun hyx => h2.1 (hyx ▸ hy), h1 y (List.mem_cons_of_mem x hy)⟩

def c2Core : KnowledgeCore :=
  { title := "t", summary := "s", concepts := [], section_hierarchy := []
  , notes := [], definitions := [], examples := [], key_facts := [] }

def c2Cores : List KnowledgeCore := List.replicate 7 c2Core

def c2CoresW : List KnowledgeCore := List.replicate 4 c2Core

/-- Claim C9: merge_cores on a single core X is a no-op passthrough: the
returned CombinedContext has all_concepts equal to the key concepts of
summarize_core X, all_facts equal to its key facts, source_count 1 and no
conflict notes. -/
theorem C9_merge_single_core_passthrough (X : KnowledgeCore) :
    ∃ ctx, merge_cores [X] = Except.ok ctx ∧
      ctx.all_concepts = (summarize_core X).key_concepts ∧
      ctx.all_facts = (summarize_core X).key_facts ∧
      ctx.source_count = 1 ∧
      ctx.conflict_notes = none :=
  ⟨_, rfl, rfl, rfl, rfl, rfl⟩

/-- Claim C10: both merge_cores and merge_summaries reject the empty input
list with a ValueError (embedded as Except.error) and produce no
CombinedContext. -/
theorem C10_empty_merge_rejected :
    merge_cores [] = Except.error "Cannot merge zero cores" ∧
    merge_summaries [] = Except.error "Cannot merge zero summaries" :=
  ⟨rfl, rfl⟩

/-- Claim C2 counterexample: with seven input cores the single pairwise
pass leaves four intermediates, so the final merge_summaries call made by
merge_cores receives four summaries; the claimed bound of at most three
summaries per call is false. -/
theorem C2_counterexample :
    c2Cores.length = 7 ∧ ¬ (∀ s ∈ merge_call_sizes c2Cores, s ≤ 3) := by
  constructor
  · rfl
  · intro hall
    have h4 : 4 ∈ merge_call_sizes c2Cores := by decide
    exact absurd (hall 4 h4) (by decide)

/-- Claim C2 (amended): merge_cores performs a single pairwise pass rather
than recursing until at most three summaries remain: for four or more
cores every pairwise merge_summaries call receives at most two summaries
and the one remaining call is the final merge, which receives one summary
per adjacent group, i.e. (N + 1) / 2 of them, a number that exceeds three
once N is at least seven. -/
theorem C2_single_pass_call_sizes (cores : List KnowledgeCore)
    (h : 4 ≤ cores.length) :
    (∀ s ∈ merge_call_sizes cores, s ≤ 2 ∨ s = (cores.length + 1) / 2) ∧
    (cores.length + 1) / 2 ∈ merge_call_sizes cores := by
  rcases cores with _ | ⟨a, _ | ⟨b, rest⟩⟩
  · simp at h
  · simp at h
  · have hlen : ¬ (a :: b :: rest).length ≤ 3 := by
      simp only [List.length_cons] at h ⊢; omega
    have hunf : merge_call_sizes (a :: b :: rest) =
        ((pairChunks ((a :: b :: rest).map summarize_core)).map List.length)
          ++ [(pairChunks ((a :: b :: rest).map summarize_core)).length] := by
      rw [merge_call_sizes, if_neg hlen] <;> simp
    have hfinal : (pairChunks ((a :: b :: rest).map summarize_core)).length =
        ((a :: b :: rest).length + 1) / 2 := by
      rw [pairChunks_length, List.length_map]
    constructor
    · intro s hs
      rw [hunf] at hs
      rcases List.mem_append.mp hs with hmem | hmem
      · obtain ⟨c, hc, rfl⟩ := List.mem_map.mp hmem
        exact Or.inl (pairChunks_sizes _ c hc)
      · rcases List.mem_singleton.mp hmem with rfl
        exact Or.inr hfinal
    · rw [hunf, ← hfinal]
      exact List.mem_append_right _ (List.mem_singleton.mpr rfl)

/-- Claim C2 witness: the amended statement instantiated at four concrete
cores. -/
theorem C2_single_pass_call_sizes_witness :
    4 ≤ c2CoresW.length ∧
    ((∀ s ∈ merge_call_sizes c2CoresW, s ≤ 2 ∨ s = (c2CoresW.length + 1) / 2) ∧
      (c2CoresW.length + 1) / 2 ∈ merge_call_sizes c2CoresW) :=
  ⟨by decide, C2_single_pass_call_sizes c2CoresW (by decide)⟩

/-! ## Claim C3: hierarchical versus flat merge of five cores -/

/-- The CombinedContext that merge_summaries returns for a one-element
input (the passthrough branch). -/
def mergeOne (s : CoreSummary) : CombinedContext :=
  { source_count := 1
  , source_titles := [s.source_title]
  , unified_summary := s.summary
  , all_concepts := s.key_concepts
  , all_facts := s.key_facts
  , conflict_notes := none }

theorem fallback_merge_concepts (L : List CoreSummary) :
    (fallback_merge L).all_concepts =
      (pyDedup [] (L.map CoreSummary.key_concepts).flatten).take 15 := rfl

theorem merge_cores_five (A B C D E : KnowledgeCore) :
    merge_cores [A, B, C, D, E] = Except.ok (fallback_merge
      [ rewrapContext (fallback_merge [summarize_core A, summarize_core B])
      , rewrapContext (fallback_merge [summarize_core C, summarize_core D])
      , rewrapContext (mergeOne (summarize_core E)) ]) := rfl

theorem merge_summaries_five (s1 s2 s3 s4 s5 : CoreSummary) :
    merge_summaries [s1, s2, s3, s4, s5] =
      Except.ok (fallback_merge [s1, s2, s3, s4, s5]) := rfl

theorem summarize_core_concepts_le_seven (X : KnowledgeCore) :
    (summarize_core X).key_concepts.length ≤ 7 := by
  simp only [summarize_core, List.length_map, List.length_take]
  omega

/-- The empty-text concept list helper for the C3 concrete inputs. -/
def c3Concept (n : String) : Concept :=
  { name := n, description := "", importance_score := 7 }

def c3CoreA : KnowledgeCore :=
  { title := "A", summary := "sa"
  , concepts := ["a1", "a2", "a3", "a4", "a5", "a6", "a7"].map c3Concept
  , section_hierarchy := [], notes := [], definitions := [], examples := []
  , key_facts := [] }

def c3CoreB : KnowledgeCore :=
  { title := "B", summary := "sb", concepts := [c3Concept "b1"]
  , section_hierarchy := [], notes := [], definitions := [], examples := []
  , key_facts := [] }

def c3CoreBlank (t : String) : KnowledgeCore :=
  { title := t, summary := "s", concepts := [], section_hierarchy := []
  , notes := [], definitions := [], examples := [], key_facts := [] }

def c3Cores : List KnowledgeCore :=
  [c3CoreA, c3CoreB, c3CoreBlank "C", c3CoreBlank "D", c3CoreBlank "E"]

/-- The deduplicated concept list a merge outcome carries (empty when the
merge raised). -/
def exceptConcepts (e : Except String CombinedContext) : List String :=
  match e with
  | .ok ctx => ctx.all_concepts
  | .error _ => []

/-- Claim C3 counterexample: for five concrete cores whose first pair
carries eight distinct concepts, the flat single-pass merge keeps the
eighth concept but the hierarchical path drops it when the intermediate
pair context is re-wrapped to its first seven concepts, so the two
deduplicated concept sets differ. -/
theorem C3_counterexample :
    (merge_cores c3Cores).isOk = true ∧
    "b1" ∈ exceptConcepts (merge_summaries (c3Cores.map summarize_core)) ∧
    "b1" ∉ exceptConcepts (merge_cores c3Cores) := by
  refine ⟨rfl, by decide, by decide⟩

/-- Claim C3 (amended): merge_cores on five cores and the flat single-pass
merge of the same five summaries yield the same deduplicated concept list
(hence the same set) whenever no truncation occurs, i.e. the first and
second summary pairs each carry at most 7 concepts in total, all concept
names across the five summaries are pairwise distinct, and there are at
most 15 in total; without these bounds the hierarchical path truncates
each intermediate context to its first 7 concepts and the two sets can
differ. -/
theorem C3_flat_merge_agreement (A B C D E : KnowledgeCore)
    (hnd : ((summarize_core A).key_concepts ++ ((summarize_core B).key_concepts ++
        ((summarize_core C).key_concepts ++ ((summarize_core D).key_concepts ++
        (summarize_core E).key_concepts)))).Nodup)
    (h12 : ((summarize_core A).key_concepts ++
        (summarize_core B).key_concepts).length ≤ 7)
    (h34 : ((summarize_core C).key_concepts ++
        (summarize_core D).key_concepts).length ≤ 7)
    (htot : ((summarize_core A).key_concepts ++ ((summarize_core B).key_concepts ++
        ((summarize_core C).key_concepts ++ ((summarize_core D).key_concepts ++
        (summarize_core E).key_concepts)))).length ≤ 15) :
    ∃ ctxH ctxF,
      merge_cores [A, B, C, D, E] = Except.ok ctxH ∧
      merge_summaries ([A, B, C, D, E].map summarize_core) = Except.ok ctxF ∧
      ctxH.all_concepts = ctxF.all_concepts ∧
      (∀ c, c ∈ ctxH.all_concepts ↔ c ∈ ctxF.all_concepts) := by
  set k1 := (summarize_core A).key_concepts with hk1
  set k2 := (summarize_core B).key_concepts with hk2
  set k3 := (summarize_core C).key_concepts with hk3
  set k4 := (summarize_core D).key_concepts with hk4
  set k5 := (summarize_core E).key_concepts with hk5
  have sl12 : List.Sublist (k1 ++ k2) (k1 ++ (k2 ++ (k3 ++ (k4 ++ k5)))) :=
    (List.append_sublist_append_left k1).mpr (List.sublist_append_left _ _)
  have sl34 : List.Sublist (k3 ++ k4) (k1 ++ (k2 ++ (k3 ++ (k4 ++ k5)))) := by
    refine List.Sublist.trans ?_ (List.sublist_append_right k1 _)
    refine List.Sublist.trans ?_ (List.sublist_append_right k2 _)
    exact (List.append_sublist_append_left k3).mpr (List.sublist_append_left _ _)
  have nd12 : (k1 ++ k2).Nodup := List.Nodup.sublist sl12 hnd
  have nd34 : (k3 ++ k4).Nodup := List.Nodup.sublist sl34 hnd
  have hf1 : (rewrapContext (fallback_merge
      [summarize_core A, summarize_core B])).key_concepts = k1 ++ k2 := by
    show ((fallback_merge [summarize_core A, summarize_core B]).all_concepts).take 7
        = k1 ++ k2
    rw [fallback_merge_concepts]
    simp only [List.map_cons, List.map_nil, List.flatten_cons, List.flatten_nil,
      List.append_nil]
    rw [pyDedup_eq_self (k1 ++ k2) [] (by simp) nd12]
    rw [List.take_of_length_le (le_trans h12 (by norm_num)),
      List.take_of_length_le h12]
  have hf2 : (rewrapContext (fallback_merge
      [summarize_core C, summarize_core D])).key_concepts = k3 ++ k4 := by
    show ((fallback_merge [summarize_core C, summarize_core D]).all_concepts).take 7
        = k3 ++ k4
    rw [fallback_merge_concepts]
    simp only [List.map_cons, List.map_nil, List.flatten_cons, List.flatten_nil,
      List.append_nil]
    rw [pyDedup_eq_self (k3 ++ k4) [] (by simp) nd34]
    rw [List.take_of_length_le (le_trans h34 (by norm_num)),
      List.take_of_length_le h34]
  have hf3 : (rewrapContext (mergeOne (summarize_core E))).key_concepts = k5 := by
    show k5.take 7 = k5
    exact List.take_of_length_le (summarize_core_concepts_le_seven E)
  have hH : (fallback_merge
      [ rewrapContext (fallback_merge [summarize_core A, summarize_core B])
      , rewrapContext (fallback_merge [summarize_core C, summarize_core D])
      , rewrapContext (mergeOne (summarize_core E)) ]).all_concepts =
      k1 ++ (k2 ++ (k3 ++ (k4 ++ k5))) := by
    rw [fallback_merge_concepts]
    simp only [List.map_cons, List.map_nil, List.flatten_cons, List.flatten_nil,
      List.append_nil, hf1, hf2, hf3]
    rw [show (k1 ++ k2) ++ ((k3 ++ k4) ++ k5) = k1 ++ (k2 ++ (k3 ++ (k4 ++ k5)))
      by simp [List.append_assoc]]
    rw [pyDedup_eq_self _ [] (by simp) hnd]
    exact List.take_of_length_le htot
  have hF : (fallback_merge [summarize_core A, summarize_core B, summarize_core C,
      summarize_core D, summarize_core E]).all_concepts =
      k1 ++ (k2 ++ (k3 ++ (k4 ++ k5))) := by
    rw [fallback_merge_concepts]
    simp only [List.map_cons, List.map_nil, List.flatten_cons, List.flatten_nil,
      List.append_nil]
    rw [pyDedup_eq_self _ [] (by simp) hnd]
    exact List.take_of_length_le htot
  refine ⟨_, _, merge_cores_five A B C D E,
    merge_summaries_five (summarize_core A) (summarize_core B) (summarize_core C)
      (summarize_core D) (summarize_core E), ?_, ?_⟩
  · rw [hH, hF]
  · intro c
    rw [hH, hF]

def c3wCore (t n : String) : KnowledgeCore :=
  { title := t, summary := "s", concepts := [c3Concept n], section_hierarchy := []
  , notes := [], definitions := [], examples := [], key_facts := [] }

/-- Claim C3 witness: the amended agreement instantiated at five concrete
single-concept cores, all hypotheses discharged by evaluation. -/
theorem C3_flat_merge_agreement_witness :
    (((summarize_core (c3wCore "A" "x1")).key_concepts ++
      ((summarize_core (c3wCore "B" "x2")).key_concepts ++
      ((summarize_core (c3wCore "C" "x3")).key_concepts ++
      ((summarize_core (c3wCore "D" "x4")).key_concepts ++
      (summarize_core (c3wCore "E" "x5")).key_concepts)))).Nodup) ∧
    (∃ ctxH ctxF,
      merge_cores [c3wCore "A" "x1", c3wCore "B" "x2", c3wCore "C" "x3",
        c3wCore "D" "x4", c3wCore "E" "x5"] = Except.ok ctxH ∧
      merge_summaries ([c3wCore "A" "x1", c3wCore "B" "x2", c3wCore "C" "x3",
        c3wCore "D" "x4", c3wCore "E" "x5"].map summarize_core) = Except.ok ctxF ∧
      ctxH.all_concepts = ctxF.all_concepts ∧
      (∀ c, c ∈ ctxH.all_concepts ↔ c ∈ ctxF.all_concepts)) :=
  ⟨by decide,
    C3_flat_merge_agreement (c3wCore "A" "x1") (c3wCore "B" "x2") (c3wCore "C" "x3")
      (c3wCore "D" "x4") (c3wCore "E" "x5") (by decide) (by decide) (by decide)
      (by decide)⟩

/-! ## Protocol models (backend/models/protocol.py, backend/models/jobs.py)

UUIDs are embedded as Nat identifiers; JSON payload dicts become a record
restricted to the keys the handlers read. -/

structure BinaryMeta where
  r2_key : String
  deriving Repr, DecidableEq

/-- A generated artifact payload (backend/models/artifacts.py), embedded as
the dumped dict restricted to the fields the handler inspects: the handler
only counts questions, cards and slides and measures the notes body, so
the entries are kept opaque except for flashcards, whose cards the direct
quiz conversion constructs itself. -/
structure GenCard where
  front : String
  back : String
  hint : Option String
  source_reference : String
  deriving Repr, DecidableEq

inductive GenModel where
  | quiz (questions : List String)
  | exam (questions : List String)
  | notes (body : String)
  | slides (slides : List String)
  | flashcards (cards : List GenCard)
  deriving Repr, DecidableEq

inductive ArtifactContent where
  | source (r2_key : String) (original_name : String)
  | core (core : KnowledgeCore)
  | generated (data : GenModel) (binary : Option BinaryMeta)
  deriving Repr, DecidableEq

structure ArtifactPayload where
  id : Nat
  project_id : Nat
  type : String
  content : ArtifactContent
  deriving Repr, DecidableEq

structure EdgePayload where
  parent_artifact_id : Nat
  child_artifact_id : Nat
  relationship_type : String
  project_id : Nat
  deriving Repr, DecidableEq

structure JobBundle where
  job_id : Nat
  project_id : Nat
  artifacts : List ArtifactPayload
  edges : List EdgePayload
  renderings : List String
  result : List (String × String)
  deriving Repr, DecidableEq

structure JobPayload where
  source_type : Option String := none
  source_ref : Option String := none
  original_name : Option String := none
  source_artifact_ids : List Nat := []
  source_artifact_id : Option Nat := none
  target_type : Option String := none
  deriving Repr, DecidableEq

structure JobModel where
  id : Nat
  project_id : Nat
  type : String
  payload : JobPayload
  deriving Repr, DecidableEq

/-! ## Stored artifact rows as read back from the data store
(the dict shapes backend/handlers/generate_handler.py consumes) -/

structure StoredQuestion where
  text : String := ""
  options : List String := []
  correct_answer_index : Int := 0
  explanation : String := ""
  qtype : String := ""
  model_answer : String := ""
  grading_notes : String := ""
  deriving Repr, DecidableEq

structure StoredCard where
  front : String := ""
  back : String := ""
  deriving Repr, DecidableEq

structure StoredSlide where
  heading : String := ""
  main_idea : String := ""
  bullet_points : List String := []
  speaker_notes : String := ""
  deriving Repr, DecidableEq

structure StoredData where
  questions : List StoredQuestion := []
  cards : List StoredCard := []
  flashcards : List StoredCard := []
  slides : List StoredSlide := []
  markdown : Option String := none
  body : Option String := none
  content : Option String := none
  text : Option String := none
  deriving Repr, DecidableEq

structure StoredContent where
  core : Option KnowledgeCore := none
  data : StoredData := {}
  text : Option String := none
  deriving Repr, DecidableEq

structure StoredArtifact where
  type : String
  alias_name : Option String := none
  content : StoredContent := {}
  deriving Repr, DecidableEq

structure ParentEdge where
  parent_artifact_id : Nat
  deriving Repr, DecidableEq

/-! ## GenerateHandler (backend/handlers/generate_handler.py) -/

/-- The frozen ALLOWED_GENERATIONS adjacency map (lines 32-39). -/
def ALLOWED_GENERATIONS : String → Option (List String)
  | "knowledge_core" => some ["quiz", "exam", "notes", "slides", "flashcards"]
  | "quiz" => some ["flashcards", "exam", "notes", "slides"]
  | "exam" => some ["quiz", "notes", "slides", "flashcards"]
  | "slides" => some ["quiz", "exam", "notes", "flashcards"]
  | "notes" => some ["quiz", "exam", "slides", "flashcards"]
  | "flashcards" => some ["quiz", "exam", "notes", "slides"]
  | _ => none

/-- Python string truthiness-based `or` on optional strings. -/
def pyOrStr : Option String → Option String → Option String
  | some s, b => if s = "" then b else some s
  | none, b => b

/-- The field count `len(data.get(field, []))` reads off a dumped model. -/
def modelFieldLen (field : String) (m : GenModel) : Nat :=
  match field, m with
  | "questions", GenModel.quiz qs => qs.length
  | "questions", GenModel.exam qs => qs.length
  | "cards", GenModel.flashcards cs => cs.length
  | "slides", GenModel.slides ss => ss.length
  | _, _ => 0

/-- The `data.get("body", "")` read used for notes validation. -/
def modelBody : GenModel → String
  | GenModel.notes b => b
  | _ => ""

/-- The MIN_REQUIREMENTS table of _validate_artifact_semantics. -/
def MIN_REQUIREMENTS : String → Option (String × Nat)
  | "quiz" => some ("questions", 5)
  | "flashcards" => some ("cards", 5)
  | "slides" => some ("slides", 3)
  | "exam" => some ("questions", 10)
  | _ => none

/-- GenerateHandler._validate_artifact_semantics: minimum content per
target type; unknown types are skipped. -/
def validate_artifact_semantics (target_type : String) (m : GenModel) :
    Except String Unit :=
  if target_type = "notes" then
    if (modelBody m).length < 200 then
      Except.error "Semantic validation failed for notes"
    else Except.ok ()
  else
    match MIN_REQUIREMENTS target_type with
    | none => Except.ok ()
    | some (field, min_count) =>
      if modelFieldLen field m < min_count then
        Except.error ("Semantic validation failed for " ++ target_type)
      else Except.ok ()

/-- GenerateHandler._extract_content_as_text. -/
def extract_content_as_text (artifact : StoredArtifact) : Option String :=
  let data := artifact.content.data
  if artifact.type = "notes" then
    pyOrStr (pyOrStr data.markdown data.body) data.content
  else if artifact.type = "text" ∨ artifact.type = "flat_text" ∨
      artifact.type = "transcription" then
    pyOrStr data.text artifact.content.text
  else if artifact.type = "quiz" then
    some (String.intercalate "\n" ("Quiz Content:" ::
      (data.questions.map (fun q =>
        ["Q: " ++ q.text,
         "Answer: " ++ (if q.explanation = "" then "Correct Option"
           else q.explanation)])).flatten))
  else if artifact.type = "flashcards" then
    let cards := if data.cards.isEmpty then data.flashcards else data.cards
    some (String.intercalate "\n" ("Flashcards Content:" ::
      (cards.map (fun c => ["Front: " ++ c.front, "Back: " ++ c.back])).flatten))
  else if artifact.type = "exam" then
    some (String.intercalate "\n" ("Exam Content:" ::
      (data.questions.map (fun q =>
        ["Q: " ++ q.text, "Type: " ++ q.qtype,
         "Model Answer: " ++ q.model_answer,
         "Grading Notes: " ++ q.grading_notes, ""])).flatten))
  else if artifact.type = "slides" then
    some (String.intercalate "\n" ("Slides Content:" ::
      (data.slides.map (fun s =>
        ("# " ++ s.heading) :: s.main_idea ::
          (s.bullet_points.map (fun bp => "- " ++ bp) ++
            ["Speaker Notes: " ++ s.speaker_notes, ""]))).flatten))
  else none

/-- The artifact types the chaining branch (Strategy 2) accepts. -/
def chainableTypes : List String :=
  ["notes", "text", "flat_text", "transcription", "quiz", "flashcards",
   "exam", "slides"]

/-- The synthetic KnowledgeCore the chaining branch builds around the full
text of a derived artifact. -/
def syntheticCore (artifact : StoredArtifact) (text : String) : KnowledgeCore :=
  { title := "Source: " ++ artifact.alias_name.getD "Content"
  , summary := text
  , concepts := [], key_facts := [], section_hierarchy := [], notes := []
  , definitions := [], examples := [] }

/-- The collaborator environment of GenerateHandler: store lookups, the
five typed generators (each may raise, embedded as Except, or return
nothing), the two binary renderers, and the fresh artifact id
uuid.uuid4() would mint. -/
structure GenEnv where
  get_artifact : Nat → Option StoredArtifact
  get_parent_edge : Nat → Option ParentEdge
  generate_quiz : KnowledgeCore → Except String (Option GenModel)
  generate_exam : KnowledgeCore → Except String (Option GenModel)
  generate_notes : KnowledgeCore → Except String (Option GenModel)
  generate_slides : KnowledgeCore → Except String (Option GenModel)
  generate_flashcards : KnowledgeCore → Except String (Option GenModel)
  render_exam_pdf : GenModel → Nat → Nat → Option BinaryMeta
  render_slides_pptx : GenModel → Nat → Nat → Option BinaryMeta
  new_artifact_id : Nat

/-- Strategies 1-3 of the per-source resolution: a knowledge_core artifact
yields its stored core, a chainable derived artifact yields a synthetic
core around its text, and otherwise the parent edge is walked to an
ancestor knowledge_core. -/
def resolve_core (env : GenEnv) (source_id : Nat) (artifact : StoredArtifact) :
    Option KnowledgeCore :=
  let found :=
    if artifact.type = "knowledge_core" then
      artifact.content.core
    else if artifact.type ∈ chainableTypes then
      match extract_content_as_text artifact with
      | some t => if t = "" then none else some (syntheticCore artifact t)
      | none => none
    else none
  match found with
  | some c => some c
  | none =>
    match env.get_parent_edge source_id with
    | some edge =>
      match env.get_artifact edge.parent_artifact_id with
      | some parent =>
        if parent.type = "knowledge_core" then parent.content.core else none
      | none => none
    | none => none

/-- One flashcard of the direct quiz-to-flashcards conversion. -/
def quizCard (idx : Nat) (q : StoredQuestion) : GenCard :=
  let correct :=
    if 0 ≤ q.correct_answer_index ∧ q.correct_answer_index < (q.options.length : Int)
    then q.options.getD q.correct_answer_index.toNat ""
    else ""
  { front := q.text
  , back := if q.explanation = "" then correct
      else (correct ++ "\n\n" ++ q.explanation).trim
  , hint := none
  , source_reference := "Quiz Q" ++ toString (idx + 1) }

/-- GenerateHandler._finalize_job: semantic validation, binary rendering
for exam and slides, then the bundle with one artifact and one
derived_from edge per source id. -/
def finalize_job (env : GenEnv) (job : JobModel) (source_ids : List Nat)
    (target_type : String) (generated_model : Option GenModel) :
    Except String JobBundle :=
  match generated_model with
  | none => Except.error ("Generation failed for " ++ target_type)
  | some m => do
    validate_artifact_semantics target_type m
    let new_artifact_id := env.new_artifact_id
    let binary_metadata : Option BinaryMeta ←
      if target_type = "exam" then
        match env.render_exam_pdf m job.project_id new_artifact_id with
        | none => Except.error "Exam binary generation failed"
        | some bm => Except.ok (some bm)
      else if target_type = "slides" then
        match env.render_slides_pptx m job.project_id new_artifact_id with
        | none => Except.error "Slides binary generation failed"
        | some bm => Except.ok (some bm)
      else Except.ok none
    let artifact : ArtifactPayload :=
      { id := new_artifact_id, project_id := job.project_id
      , type := target_type
      , content := ArtifactContent.generated m binary_metadata }
    let edges := source_ids.map (fun src =>
      { parent_artifact_id := src, child_artifact_id := new_artifact_id
      , relationship_type := "derived_from"
      , project_id := job.project_id : EdgePayload })
    Except.ok
      { job_id := job.id, project_id := job.project_id
      , artifacts := [artifact], edges := edges, renderings := []
      , result := [("status", "success"), ("artifact_type", target_type)] }

/-- The per-source loop of GenerateHandler.run. For each id: fetch the
artifact (not-found raises), look up ALLOWED_GENERATIONS — the legality
branch in the source is disabled, its body is `pass`, so the lookup has no
effect — take the direct quiz-to-flashcards conversion when there is a
single quiz source and the target is flashcards (an early return carrying
the converted model), and otherwise resolve a knowledge core or raise. -/
def gen_loop (env : GenEnv) (single : Bool) (target_type : String) :
    List Nat → Except String (Sum GenModel (List KnowledgeCore))
  | [] => Except.ok (Sum.inr [])
  | source_id :: rest =>
    match env.get_artifact source_id with
    | none => Except.error ("Source artifact not found: " ++ toString source_id)
    | some source_artifact =>
      let _allowed_targets := (ALLOWED_GENERATIONS source_artifact.type).getD []
      if single ∧ source_artifact.type = "quiz" ∧ target_type = "flashcards" then
        let questions := source_artifact.content.data.questions
        if questions.isEmpty then Except.error "Quiz has no questions"
        else Except.ok (Sum.inl (GenModel.flashcards
          (questions.enum.map (fun p => quizCard p.fst p.snd))))
      else
        match resolve_core env source_id source_artifact with
        | none => Except.error ("Could not resolve Knowledge Core context for source "
            ++ toString source_id ++ " of type " ++ source_artifact.type)
        | some found_core => do
          let out ← gen_loop env single target_type rest
          match out with
          | Sum.inl m => Except.ok (Sum.inl m)
          | Sum.inr cs => Except.ok (Sum.inr (found_core :: cs))

/-- The id normalization at the top of GenerateHandler.run:
source_artifact_ids when truthy, else the single source_artifact_id. -/
def payload_source_ids (payload : JobPayload) : List Nat :=
  if payload.source_artifact_ids ≠ [] then payload.source_artifact_ids
  else
    match payload.source_artifact_id with
    | some i => [i]
    | none => []

/-- The high-fidelity concatenation built when every resolved core is
synthetic (empty concepts, non-empty summary). -/
def combineSynthetic (cores : List KnowledgeCore) : KnowledgeCore :=
  { title := "Combined: " ++ String.intercalate ", " (cores.map KnowledgeCore.title)
  , summary := String.intercalate "\n\n" (cores.map (fun c =>
      "### Content from " ++ c.title ++ ":\n" ++ c.summary))
  , concepts := [], key_facts := [], section_hierarchy := [], notes := []
  , definitions := [], examples := [] }

/-- The synthetic KnowledgeCore rebuilt from a merged CombinedContext for
generator compatibility. -/
def coreFromCombined (ctx : CombinedContext) : KnowledgeCore :=
  { title := "Combined: " ++ String.intercalate ", " ctx.source_titles
  , summary := ctx.unified_summary
  , concepts := ctx.all_concepts.map (fun c =>
      { name := c, description := "", importance_score := 7 })
  , key_facts := ctx.all_facts.map (fun f => { fact := f, category := "Combined" })
  , notes := [], section_hierarchy := [], definitions := [], examples := [] }

/-- The final-core selection after the resolution loop: a single core is
passed through; all-synthetic cores (empty concepts, non-empty summary)
are concatenated at full fidelity; otherwise the hierarchical CoreMerger
runs and its CombinedContext is rebuilt as a synthetic core. -/
def select_final_core (resolved_cores : List KnowledgeCore) :
    Except String KnowledgeCore :=
  match resolved_cores with
  | [c] => Except.ok c
  | cores =>
    if cores.all (fun c => c.concepts.isEmpty && !(c.summary == "")) then
      Except.ok (combineSynthetic cores)
    else do
      let combined ← merge_cores cores
      Except.ok (coreFromCombined combined)

/-- The generator dispatch of GenerateHandler.run: one typed generator per
target type, any other target raises. -/
def dispatch_generate (env : GenEnv) (target_type : String)
    (final_core : KnowledgeCore) : Except String (Option GenModel) :=
  if target_type = "quiz" then env.generate_quiz final_core
  else if target_type = "exam" then env.generate_exam final_core
  else if target_type = "notes" then env.generate_notes final_core
  else if target_type = "slides" then env.generate_slides final_core
  else if target_type = "flashcards" then env.generate_flashcards final_core
  else Except.error ("Unknown target_type: " ++ target_type)

/-- GenerateHandler.run (the local source_ids of the Python body is
written out as payload_source_ids job.payload). -/
def generate_run (env : GenEnv) (job : JobModel) : Except String JobBundle :=
  if (payload_source_ids job.payload).isEmpty then
    Except.error "source_artifact_ids (or source_artifact_id) is required"
  else
    match job.payload.target_type with
    | none => Except.error "target_type is required"
    | some target_type =>
      if target_type = "" then Except.error "target_type is required"
      else do
        let out ← gen_loop env ((payload_source_ids job.payload).length == 1)
          target_type (payload_source_ids job.payload)
        match out with
        | Sum.inl m =>
          finalize_job env job (payload_source_ids job.payload) target_type
            (some m)
        | Sum.inr resolved_cores =>
          if resolved_cores.isEmpty then
            Except.error "No Knowledge Cores resolved."
          else do
            let final_core ← select_final_core resolved_cores
            let generated_model ← dispatch_generate env target_type final_core
            finalize_job env job (payload_source_ids job.payload) target_type
              generated_model

/-! ## IngestHandler (backend/handlers/ingest_handler.py) -/

/-- The dict an ingestion collaborator returns, restricted to the keys the
handler reads. -/
structure IngestResult where
  status : String := ""
  fileURL : String := ""
  deriving Repr, DecidableEq

/-- The collaborator environment of IngestHandler: the four ingestor
dispatch targets, the extractor, the cleaner, the knowledge-core
generator, and the two fresh artifact ids uuid.uuid4() would mint. Each
collaborator may raise (Except.error). -/
structure IngestEnv where
  process_youtube : String → Nat → Except String IngestResult
  process_audio_upload : String → Nat → String → Except String IngestResult
  process_video_upload : String → Nat → String → Except String IngestResult
  process_document : String → Nat → String → String → Except String IngestResult
  extract_from_r2 : String → Except String String
  clean_with_gemini : String → Except String String
  generate_knowledge_core : String → Except String (Option KnowledgeCore)
  source_artifact_id : Nat
  core_artifact_id : Nat

def VALID_SOURCE_TYPES : List String :=
  ["youtube", "audio", "video", "pdf", "pptx", "md"]

/-- The FORBIDDEN token list of the KC-4 plain-text gate. -/
def FORBIDDEN_TOKENS : List String :=
  ["$", "\\(", "\\)", "\\[", "\\]", "#", "**", "*", "`"]

/-- Contiguous containment of one character list in another. -/
def isInfixList (pat : List Char) : List Char → Bool
  | [] => pat.isEmpty
  | l@(_ :: tl) => pat.isPrefixOf l || isInfixList pat tl

/-- Substring containment (Python `token in value`). -/
def strContains (value token : String) : Bool :=
  isInfixList token.toList value.toList

/-- Every text field of a KnowledgeCore, in the order the KC-4 validation
walks them: title, summary, concepts, section hierarchy with subsections,
notes with bullets, definitions, examples, key facts. -/
def kcStringFields (kc : KnowledgeCore) : List String :=
  [kc.title, kc.summary]
  ++ (kc.concepts.map (fun c => [c.name, c.description])).flatten
  ++ (kc.section_hierarchy.map (fun s =>
        s.title :: s.summary ::
          (s.subsections.map (fun sub => [sub.title, sub.summary])).flatten)).flatten
  ++ (kc.notes.map (fun n => n.heading :: n.bullets)).flatten
  ++ (kc.definitions.map (fun d => [d.term, d.definition, d.context])).flatten
  ++ (kc.examples.map (fun e => [e.description, e.relevance])).flatten
  ++ (kc.key_facts.map (fun kf => [kf.fact, kf.category])).flatten

/-- The KC-5 required-fields gate: every structural section non-empty. -/
def kc5_check (kc : KnowledgeCore) : Except String Unit :=
  if kc.title = "" ∨ kc.summary = "" ∨ kc.concepts = [] ∨
      kc.section_hierarchy = [] ∨ kc.notes = [] ∨ kc.definitions = [] ∨
      kc.examples = [] ∨ kc.key_facts = [] then
    Except.error "KC-5 Violation: Empty or missing field in KnowledgeCore"
  else Except.ok ()

/-- The KC-4 plain-text gate: no forbidden LaTeX or Markdown token in any
text field. -/
def kc4_check (kc : KnowledgeCore) : Except String Unit :=
  if (kcStringFields kc).any (fun v => FORBIDDEN_TOKENS.any (strContains v)) then
    Except.error "KC-4 Violation: Forbidden token in KnowledgeCore"
  else Except.ok ()

/-- The ingestion dispatch of IngestHandler.run: route to the ingestor
method matching the source type (documents go to process_document with the
upper-cased type tag). -/
def dispatch_ingest (env : IngestEnv) (source_type source_ref : String)
    (project_id : Nat) (original_name : String) : Except String IngestResult :=
  if source_type = "youtube" then
    env.process_youtube source_ref project_id
  else if source_type = "audio" then
    env.process_audio_upload source_ref project_id original_name
  else if source_type = "video" then
    env.process_video_upload source_ref project_id original_name
  else
    env.process_document source_ref project_id original_name
      source_type.toUpper

/-- IngestHandler.run: validate the payload, dispatch ingestion by source
type, extract (fewer than 50 characters is a hard failure), clean,
generate and validate the knowledge core, and emit the two-artifact,
zero-edge bundle (the Python locals source_type and original_name are
written out as their payload reads). -/
def ingest_run (env : IngestEnv) (job : JobModel) : Except String JobBundle :=
  if (job.payload.source_type.getD "") ∉ VALID_SOURCE_TYPES then
    Except.error ("Invalid source_type: " ++ job.payload.source_type.getD "")
  else
    match job.payload.source_ref with
    | none => Except.error "source_ref is required"
    | some source_ref =>
      if source_ref = "" then Except.error "source_ref is required"
      else do
        let ingest_result ← dispatch_ingest env
          (job.payload.source_type.getD "") source_ref job.project_id
          (job.payload.original_name.getD "Untitled")
        if ingest_result.status = "FAILED" then
          Except.error "Ingestion failed"
        else do
          let text ← env.extract_from_r2 ingest_result.fileURL
          if text.length < 50 then
            Except.error "Extraction failed or text too short"
          else do
            let cleaned_text ← env.clean_with_gemini text
            let kcO ← env.generate_knowledge_core cleaned_text
            match kcO with
            | none => Except.error "Knowledge Core generation failed"
            | some knowledge_core => do
              kc5_check knowledge_core
              kc4_check knowledge_core
              Except.ok
                { job_id := job.id, project_id := job.project_id
                , artifacts :=
                    [ { id := env.source_artifact_id
                      , project_id := job.project_id
                      , type := job.payload.source_type.getD ""
                      , content := ArtifactContent.source ingest_result.fileURL
                          (job.payload.original_name.getD "Untitled") }
                    , { id := env.core_artifact_id
                      , project_id := job.project_id
                      , type := "knowledge_core"
                      , content := ArtifactContent.core knowledge_core } ]
                , edges := [], renderings := []
                , result := [("status", "success")] }

/-! ## JobRunner dispatch loop (backend/job_runner.py) -/

inductive DbCall where
  | commit (b : JobBundle)
  | failJob (job_id : Nat) (msg : String)
  deriving Repr, DecidableEq

inductive IterOutcome where
  | idleSlept
  | committed
  | failedJob
  | criticalSlept
  deriving Repr, DecidableEq

/-- One loop iteration of JobRunner.run_loop, as seen by the data store:
what claim_job returned, the handler registry (an unregistered type is a
resolution error), what committing a bundle would do, and whether the
best-effort fail_job call itself raises. -/
structure RunnerEnv where
  claimed : Option JobModel
  registry : String → Option (JobModel → Except String JobBundle)
  commit_result : JobBundle → Except String Unit
  fail_result : Except String Unit

/-- The inner `except Exception` handler of the loop: record the fail_job
call; if fail_job itself raises, the outer handler catches and sleeps, and
the loop continues either way. -/
def fail_path (env : RunnerEnv) (job_id : Nat) (msg : String)
    (prior : List DbCall) : List DbCall × IterOutcome :=
  (prior ++ [DbCall.failJob job_id msg],
    match env.fail_result with
    | Except.ok _ => IterOutcome.failedJob
    | Except.error _ => IterOutcome.criticalSlept)

/-- One iteration of the dispatch loop: claim, resolve the handler,
execute, commit; any exception in the inner region is converted into a
fail_job call. The function is total and every outcome re-enters the loop,
which is how the embedding renders that no exception terminates run_loop.
The first component lists the data-store mutation calls the iteration
performed, in order. -/
def runner_iteration (env : RunnerEnv) : List DbCall × IterOutcome :=
  match env.claimed with
  | none => ([], IterOutcome.idleSlept)
  | some job =>
    match env.registry job.type with
    | none => fail_path env job.id ("No handler for job type: " ++ job.type) []
    | some handler =>
      match handler job with
      | Except.error msg => fail_path env job.id msg []
      | Except.ok bundle =>
        match env.commit_result bundle with
        | Except.ok _ => ([DbCall.commit bundle], IterOutcome.committed)
        | Except.error msg => fail_path env job.id msg [DbCall.commit bundle]

/-- The inner try block of the loop as one Except computation: handler
resolution, handler execution, then commit. -/
def inner_result (env : RunnerEnv) (job : JobModel) : Except String JobBundle :=
  match env.registry job.type with
  | none => Except.error ("No handler for job type: " ++ job.type)
  | some handler => do
    let bundle ← handler job
    match env.commit_result bundle with
    | Except.ok _ => Except.ok bundle
    | Except.error msg => Except.error msg

/-! ## Shape of every bundle _finalize_job can return -/

theorem finalize_job_ok_shape (env : GenEnv) (job : JobModel)
    (source_ids : List Nat) (target_type : String) (gm : Option GenModel)
    (b : JobBundle)
    (h : finalize_job env job source_ids target_type gm = Except.ok b) :
    ∃ m bin,
      gm = some m ∧
      validate_artifact_semantics target_type m = Except.ok () ∧
      ((target_type = "exam" ∨ target_type = "slides") → bin.isSome = true) ∧
      (∃ a, b.artifacts = [a] ∧ a.id = env.new_artifact_id ∧
        a.project_id = job.project_id ∧ a.type = target_type ∧
        a.content = ArtifactContent.generated m bin) ∧
      b.edges = source_ids.map (fun src =>
        EdgePayload.mk src env.new_artifact_id "derived_from" job.project_id) := by
  cases gm with
  | none => exact absurd h (by simp [finalize_job])
  | some m =>
    refine ⟨m, ?_⟩
    unfold finalize_job at h
    simp only [bind, Except.bind] at h
    split at h
    · exact absurd h (by simp)
    · rename_i u hval
      cases u
      split at h
      · rename_i hexam
        split at h
        · exact absurd h (by simp)
        · rename_i bm hrender
          simp only [Except.ok.injEq] at h
          subst h
          exact ⟨some bm, rfl, hval, fun _ => rfl,
            ⟨_, rfl, rfl, rfl, rfl, rfl⟩, rfl⟩
      · rename_i hexam
        split at h
        · rename_i hslides
          split at h
          · exact absurd h (by simp)
          · rename_i bm hrender
            simp only [Except.ok.injEq] at h
            subst h
            exact ⟨some bm, rfl, hval, fun _ => rfl,
              ⟨_, rfl, rfl, rfl, rfl, rfl⟩, rfl⟩
        · rename_i hslides
          simp only [Except.ok.injEq] at h
          subst h
          refine ⟨none, rfl, hval, ?_, ⟨_, rfl, rfl, rfl, rfl, rfl⟩, rfl⟩
          intro hor
          rcases hor with h1 | h1
          · exact absurd h1 hexam
          · exact absurd h1 hslides

/-! ## Successful generate runs always pass through _finalize_job -/

theorem gen_loop_inl_flashcards (env : GenEnv) (single : Bool) (t : String) :
    ∀ (ids : List Nat) (m : GenModel),
      gen_loop env single t ids = Except.ok (Sum.inl m) → t = "flashcards" := by
  intro ids
  induction ids with
  | nil => intro m h; exact absurd h (by simp [gen_loop])
  | cons source_id rest ih =>
    intro m h
    unfold gen_loop at h
    split at h
    · exact absurd h (by simp)
    · rename_i source_artifact hart
      split at h
      · rename_i hcond
        exact hcond.2.2
      · split at h
        · exact absurd h (by simp)
        · rename_i found_core hres
          simp only [bind, Except.bind] at h
          split at h
          · exact absurd h (by simp)
          · rename_i out hrest
            cases out with
            | inl m2 => exact ih m2 hrest
            | inr cs => exact absurd h (by simp)

theorem dispatch_generate_ok_mem (env : GenEnv) (t : String)
    (fc : KnowledgeCore) (gm : Option GenModel)
    (h : dispatch_generate env t fc = Except.ok gm) :
    t ∈ ["quiz", "exam", "notes", "slides", "flashcards"] := by
  unfold dispatch_generate at h
  by_cases h1 : t = "quiz"
  · simp [h1]
  · by_cases h2 : t = "exam"
    · simp [h2]
    · by_cases h3 : t = "notes"
      · simp [h3]
      · by_cases h4 : t = "slides"
        · simp [h4]
        · by_cases h5 : t = "flashcards"
          · simp [h5]
          · rw [if_neg h1, if_neg h2, if_neg h3, if_neg h4, if_neg h5] at h
            exact absurd h (by simp)

theorem generate_run_ok_exists (env : GenEnv) (job : JobModel) (b : JobBundle)
    (h : generate_run env job = Except.ok b) :
    ∃ t gm, job.payload.target_type = some t ∧
      t ∈ ["quiz", "exam", "notes", "slides", "flashcards"] ∧
      finalize_job env job (payload_source_ids job.payload) t gm =
        Except.ok b := by
  unfold generate_run at h
  split at h
  · exact absurd h (by simp)
  · split at h
    · exact absurd h (by simp)
    · rename_i t ht
      split at h
      · exact absurd h (by simp)
      · rename_i htne
        simp only [bind, Except.bind] at h
        split at h
        · exact absurd h (by simp)
        · rename_i out hloop
          split at h
          · rename_i m
            have hfl : t = "flashcards" :=
              gen_loop_inl_flashcards env _ t _ m hloop
            exact ⟨t, some m, ht, by simp [hfl], h⟩
          · rename_i resolved_cores
            split at h
            · exact absurd h (by simp)
            · split at h
              · exact absurd h (by simp)
              · rename_i final_core hfc
                split at h
                · exact absurd h (by simp)
                · rename_i gmo hgen
                  exact ⟨t, gmo, ht,
                    dispatch_generate_ok_mem env t final_core gmo hgen, h⟩

/-! ## Shape of every bundle IngestHandler.run can return -/

theorem ingest_run_ok_shape (env : IngestEnv) (job : JobModel) (b : JobBundle)
    (h : ingest_run env job = Except.ok b) :
    ∃ st r2 oname kc,
      job.payload.source_type = some st ∧
      st ∈ VALID_SOURCE_TYPES ∧
      b.artifacts =
        [ ArtifactPayload.mk env.source_artifact_id job.project_id st
            (ArtifactContent.source r2 oname)
        , ArtifactPayload.mk env.core_artifact_id job.project_id
            "knowledge_core" (ArtifactContent.core kc) ] ∧
      b.edges = [] := by
  unfold ingest_run at h
  split at h
  · exact absurd h (by simp)
  · rename_i hst
    rw [not_not] at hst
    split at h
    · exact absurd h (by simp)
    · rename_i source_ref href
      split at h
      · exact absurd h (by simp)
      · rename_i hrefne
        simp only [bind, Except.bind] at h
        split at h
        · exact absurd h (by simp)
        · rename_i ir hing
          split at h
          · exact absurd h (by simp)
          · rename_i hstatus
            split at h
            · exact absurd h (by simp)
            · rename_i text hext
              split at h
              · exact absurd h (by simp)
              · rename_i hlen
                split at h
                · exact absurd h (by simp)
                · rename_i cleaned hclean
                  split at h
                  · exact absurd h (by simp)
                  · rename_i kcO hkco
                    split at h
                    · exact absurd h (by simp)
                    · rename_i kc
                      split at h
                      · exact absurd h (by simp)
                      · rename_i u5 h5
                        split at h
                        · exact absurd h (by simp)
                        · rename_i u4 h4
                          simp only [Except.ok.injEq] at h
                          subst h
                          refine ⟨job.payload.source_type.getD "", ir.fileURL,
                            job.payload.original_name.getD "Untitled", kc, ?_, hst, rfl, rfl⟩
                          cases hsrc : job.payload.source_type with
                          | some s => rfl
                          | none =>
                            rw [hsrc] at hst
                            exact absurd hst (by decide)

/-! ## The claims about the handlers and the dispatch loop -/

/-- Claim C4: every successful generate run returns a bundle with exactly
one new artifact and exactly one edge per source artifact id, each edge
having relationship_type derived_from, the source id as parent and the new
artifact as child. -/
theorem C4_generate_bundle_shape (env : GenEnv) (job : JobModel) (b : JobBundle)
    (h : generate_run env job = Except.ok b) :
    ∃ a, b.artifacts = [a] ∧
      b.edges.length = (payload_source_ids job.payload).length ∧
      b.edges.map EdgePayload.parent_artifact_id = payload_source_ids job.payload ∧
      ∀ e ∈ b.edges, e.relationship_type = "derived_from" ∧
        e.child_artifact_id = a.id := by
  obtain ⟨t, gm, ht, hmem, hfin⟩ := generate_run_ok_exists env job b h
  obtain ⟨m, bin, hgm, hval, hbin, ⟨a, hart, haid, hapid, hatype, hacont⟩, hedges⟩ :=
    finalize_job_ok_shape env job _ t gm b hfin
  refine ⟨a, hart, ?_, ?_, ?_⟩
  · rw [hedges]; simp
  · rw [hedges, List.map_map]
    exact List.map_id _
  · intro e he
    rw [hedges] at he
    obtain ⟨src, hsrc, rfl⟩ := List.mem_map.mp he
    exact ⟨rfl, by simp [haid]⟩
def c4Core : KnowledgeCore :=
  { title := "T", summary := "S", concepts := [], section_hierarchy := []
  , notes := [], definitions := [], examples := [], key_facts := [] }

def c4Artifact : StoredArtifact :=
  { type := "knowledge_core", content := { core := some c4Core } }

def c4Env : GenEnv :=
  { get_artifact := fun i => if i = 1 then some c4Artifact else none
  , get_parent_edge := fun _ => none
  , generate_quiz := fun _ =>
      Except.ok (some (GenModel.quiz ["a", "b", "c", "d", "e"]))
  , generate_exam := fun _ => Except.ok none
  , generate_notes := fun _ => Except.ok none
  , generate_slides := fun _ => Except.ok none
  , generate_flashcards := fun _ => Except.ok none
  , render_exam_pdf := fun _ _ _ => none
  , render_slides_pptx := fun _ _ _ => none
  , new_artifact_id := 42 }

def c4Job : JobModel :=
  { id := 10, project_id := 20, type := "generate"
  , payload := { source_artifact_id := some 1, target_type := some "quiz" } }

def c4Bundle : JobBundle :=
  { job_id := 10, project_id := 20
  , artifacts := [⟨42, 20, "quiz",
      ArtifactContent.generated (GenModel.quiz ["a", "b", "c", "d", "e"]) none⟩]
  , edges := [⟨1, 42, "derived_from", 20⟩]
  , renderings := []
  , result := [("status", "success"), ("artifact_type", "quiz")] }

/-- Claim C4 witness: a concrete successful quiz generation from a single
knowledge-core source. -/
theorem C4_generate_bundle_shape_witness :
    generate_run c4Env c4Job = Except.ok c4Bundle ∧
    (∃ a, c4Bundle.artifacts = [a] ∧
      c4Bundle.edges.length = (payload_source_ids c4Job.payload).length ∧
      c4Bundle.edges.map EdgePayload.parent_artifact_id =
        payload_source_ids c4Job.payload ∧
      ∀ e ∈ c4Bundle.edges, e.relationship_type = "derived_from" ∧
        e.child_artifact_id = a.id) :=
  ⟨rfl, C4_generate_bundle_shape c4Env c4Job c4Bundle rfl⟩
/-- Claim C5: every successful ingest run returns a bundle with exactly two
new artifacts, the raw source artifact (kind source, typed by the payload
source_type) and the knowledge-core artifact (kind core, type
knowledge_core), and zero edges. -/
theorem C5_ingest_bundle_shape (env : IngestEnv) (job : JobModel) (b : JobBundle)
    (h : ingest_run env job = Except.ok b) :
    b.artifacts.length = 2 ∧ b.edges = [] ∧
    ∃ st, job.payload.source_type = some st ∧
      ∃ a1 a2, b.artifacts = [a1, a2] ∧
        a1.type = st ∧ (∃ r2 oname, a1.content = ArtifactContent.source r2 oname) ∧
        a2.type = "knowledge_core" ∧ (∃ kc, a2.content = ArtifactContent.core kc) := by
  obtain ⟨st, r2, oname, kc, hst, hmem, hart, hedg⟩ := ingest_run_ok_shape env job b h
  exact ⟨by rw [hart]; rfl, hedg, st, hst, _, _, hart, rfl, ⟨r2, oname, rfl⟩,
    rfl, ⟨kc, rfl⟩⟩

def c5KC : KnowledgeCore :=
  { title := "T", summary := "S"
  , concepts := [{ name := "c", description := "d", importance_score := 5 }]
  , section_hierarchy :=
      [{ title := "s", summary := "ss"
       , subsections := [{ title := "t", summary := "u" }] }]
  , notes := [{ heading := "h", bullets := ["b"] }]
  , definitions := [{ term := "t", definition := "d", context := "c" }]
  , examples := [{ description := "d", relevance := "r" }]
  , key_facts := [{ fact := "f", category := "c" }] }

def c5Env : IngestEnv :=
  { process_youtube := fun _ _ => Except.ok { status := "ok", fileURL := "k" }
  , process_audio_upload := fun _ _ _ => Except.ok { status := "ok", fileURL := "k" }
  , process_video_upload := fun _ _ _ => Except.ok { status := "ok", fileURL := "k" }
  , process_document := fun _ _ _ _ => Except.ok { status := "ok", fileURL := "k" }
  , extract_from_r2 := fun _ =>
      Except.ok "aaaaaaaaaaaaaaaaaaaaaaaaaaaaaaaaaaaaaaaaaaaaaaaaaa"
  , clean_with_gemini := fun t => Except.ok t
  , generate_knowledge_core := fun _ => Except.ok (some c5KC)
  , source_artifact_id := 100, core_artifact_id := 101 }

def c5Job : JobModel :=
  { id := 11, project_id := 22, type := "ingest"
  , payload :=
      { source_type := some "md", source_ref := some "r"
      , original_name := some "n" } }

def c5Bundle : JobBundle :=
  { job_id := 11, project_id := 22
  , artifacts := [⟨100, 22, "md", ArtifactContent.source "k" "n"⟩,
      ⟨101, 22, "knowledge_core", ArtifactContent.core c5KC⟩]
  , edges := [], renderings := [], result := [("status", "success")] }

/-- Claim C5 witness: a concrete successful markdown ingest. -/
theorem C5_ingest_bundle_shape_witness :
    ingest_run c5Env c5Job = Except.ok c5Bundle ∧
    (c5Bundle.artifacts.length = 2 ∧ c5Bundle.edges = [] ∧
    ∃ st, c5Job.payload.source_type = some st ∧
      ∃ a1 a2, c5Bundle.artifacts = [a1, a2] ∧
        a1.type = st ∧ (∃ r2 oname, a1.content = ArtifactContent.source r2 oname) ∧
        a2.type = "knowledge_core" ∧
        (∃ kc, a2.content = ArtifactContent.core kc)) :=
  ⟨by rfl, C5_ingest_bundle_shape c5Env c5Job c5Bundle (by rfl)⟩
/-- The under-threshold conditions of the semantic validation gate, read
off MIN_REQUIREMENTS and the notes body rule. -/
def below_minimum (t : String) (m : GenModel) : Prop :=
  (t = "quiz" ∧ modelFieldLen "questions" m < 5) ∨
  (t = "exam" ∧ modelFieldLen "questions" m < 10) ∨
  (t = "flashcards" ∧ modelFieldLen "cards" m < 5) ∨
  (t = "slides" ∧ modelFieldLen "slides" m < 3) ∨
  (t = "notes" ∧ (modelBody m).length < 200)

theorem validate_below (t : String) (m : GenModel) (h : below_minimum t m) :
    ∃ e, validate_artifact_semantics t m = Except.error e := by
  rcases h with ⟨ht, hlt⟩ | ⟨ht, hlt⟩ | ⟨ht, hlt⟩ | ⟨ht, hlt⟩ | ⟨ht, hlt⟩ <;>
    subst ht <;>
    simp [validate_artifact_semantics, MIN_REQUIREMENTS, hlt]

/-- Claim C6: a generated model that falls below its target type minimum
(quiz under 5 questions, exam under 10, flashcards under 5 cards, slides
under 3, notes body under 200 characters), or a binary-required target
(exam, slides) whose renderer produces no storable output, makes
_finalize_job raise instead of returning a bundle, so the handler commits
nothing and the runner marks the job failed. -/
theorem C6_semantic_validation_gate (env : GenEnv) (job : JobModel)
    (source_ids : List Nat) (t : String) (m : GenModel)
    (h : below_minimum t m ∨
      (t = "exam" ∧
        env.render_exam_pdf m job.project_id env.new_artifact_id = none) ∨
      (t = "slides" ∧
        env.render_slides_pptx m job.project_id env.new_artifact_id = none)) :
    (finalize_job env job source_ids t (some m)).isOk = false := by
  rcases h with hb | ⟨ht, hr⟩ | ⟨ht, hr⟩
  · obtain ⟨e, he⟩ := validate_below t m hb
    simp [finalize_job, bind, Except.bind, he, Except.isOk, Except.toBool]
  · subst ht
    cases hv : validate_artifact_semantics "exam" m with
    | error e => simp [finalize_job, bind, Except.bind, hv, Except.isOk, Except.toBool]
    | ok u => cases u; simp [finalize_job, bind, Except.bind, hv, hr, Except.isOk, Except.toBool]
  · subst ht
    cases hv : validate_artifact_semantics "slides" m with
    | error e => simp [finalize_job, bind, Except.bind, hv, Except.isOk, Except.toBool]
    | ok u => cases u; simp [finalize_job, bind, Except.bind, hv, hr, Except.isOk, Except.toBool]

/-- Claim C6 witness: a quiz model with only 3 questions fails the gate. -/
theorem C6_semantic_validation_gate_witness :
    below_minimum "quiz" (GenModel.quiz ["a", "b", "c"]) ∧
    (finalize_job c4Env c4Job [1] "quiz"
      (some (GenModel.quiz ["a", "b", "c"]))).isOk = false :=
  ⟨Or.inl ⟨rfl, by decide⟩, C6_semantic_validation_gate c4Env c4Job [1] "quiz"
    (GenModel.quiz ["a", "b", "c"]) (Or.inl (Or.inl ⟨rfl, by decide⟩))⟩
/-- Claim C7: no bundle either handler returns contains an edge whose
child artifact has type knowledge_core: ingest bundles carry zero edges,
and every generate edge points at the single new artifact, whose type is
the requested target type, one of the five generated types. Hence
knowledge_core artifacts always have in-degree zero. -/
theorem C7_core_indegree_zero (ienv : IngestEnv) (genv : GenEnv)
    (ijob gjob : JobModel) (bi bg : JobBundle)
    (hi : ingest_run ienv ijob = Except.ok bi)
    (hg : generate_run genv gjob = Except.ok bg) :
    bi.edges = [] ∧
    ∀ e ∈ bg.edges, ∃ a, a ∈ bg.artifacts ∧ e.child_artifact_id = a.id ∧
      a.type ≠ "knowledge_core" := by
  constructor
  · obtain ⟨_, _, _, _, _, _, _, hedg⟩ := ingest_run_ok_shape ienv ijob bi hi
    exact hedg
  · intro e he
    obtain ⟨t, gm, ht, hmem, hfin⟩ := generate_run_ok_exists genv gjob bg hg
    obtain ⟨m, bin, hgm, hval, hbin, ⟨a, hart, haid, hapid, hatype, hacont⟩,
      hedges⟩ := finalize_job_ok_shape genv gjob _ t gm bg hfin
    refine ⟨a, by rw [hart]; exact List.mem_singleton.mpr rfl, ?_, ?_⟩
    · rw [hedges] at he
      obtain ⟨src, hsrc, rfl⟩ := List.mem_map.mp he
      simp [haid]
    · rw [hatype]
      intro hcontra
      rw [hcontra] at hmem
      exact absurd hmem (by decide)

/-- Claim C7 witness: both handler runs instantiated at the concrete
successful ingest and generate environments. -/
theorem C7_core_indegree_zero_witness :
    ingest_run c5Env c5Job = Except.ok c5Bundle ∧
    generate_run c4Env c4Job = Except.ok c4Bundle ∧
    (c5Bundle.edges = [] ∧
    ∀ e ∈ c4Bundle.edges, ∃ a, a ∈ c4Bundle.artifacts ∧
      e.child_artifact_id = a.id ∧ a.type ≠ "knowledge_core") :=
  ⟨by rfl, rfl,
    C7_core_indegree_zero c5Env c4Env c5Job c4Job c5Bundle c4Bundle (by rfl) rfl⟩
def c1Artifact : StoredArtifact :=
  { type := "quiz", alias_name := some "Quiz 1"
  , content :=
      { data :=
          { questions :=
              [{ text := "q", options := ["x", "y"]
               , correct_answer_index := 0, explanation := "e" }] } } }

def c1Env : GenEnv :=
  { get_artifact := fun i => if i = 1 then some c1Artifact else none
  , get_parent_edge := fun _ => none
  , generate_quiz := fun _ =>
      Except.ok (some (GenModel.quiz ["a", "b", "c", "d", "e"]))
  , generate_exam := fun _ => Except.ok none
  , generate_notes := fun _ => Except.ok none
  , generate_slides := fun _ => Except.ok none
  , generate_flashcards := fun _ => Except.ok none
  , render_exam_pdf := fun _ _ _ => none
  , render_slides_pptx := fun _ _ _ => none
  , new_artifact_id := 7 }

def c1Job : JobModel :=
  { id := 3, project_id := 4, type := "generate"
  , payload := { source_artifact_id := some 1, target_type := some "quiz" } }

/-- The artifact and edge counts a run outcome carries (0, 0 on error). -/
def bundleCounts (e : Except String JobBundle) : Nat × Nat :=
  match e with
  | Except.ok b => (b.artifacts.length, b.edges.length)
  | Except.error _ => (0, 0)

/-- Claim C1 (code_bug evidence): the (quiz, quiz) pair is illegal under
ALLOWED_GENERATIONS, yet GenerateHandler.run succeeds on it — the legality
branch body in the source is pass, so the run chains through the quiz text,
calls the generator and returns a bundle with one artifact and one edge
instead of failing with zero artifacts. -/
theorem C1_illegal_pair_succeeds :
    "quiz" ∉ (ALLOWED_GENERATIONS "quiz").getD [] ∧
    (generate_run c1Env c1Job).isOk = true ∧
    bundleCounts (generate_run c1Env c1Job) = (1, 1) :=
  ⟨by decide, by rfl, by rfl⟩
/-- Claim C8: an exception raised during handler resolution, handler
execution, or commit never terminates the dispatch loop: runner_iteration
is a total function whose every outcome re-enters the loop, and whenever
the inner region raises with some message the iteration ends by calling
fail_job for the claimed job with exactly that message, then continues
(directly, or through the outer critical-error sleep when fail_job itself
raises). -/
theorem C8_loop_survives_exceptions (env : RunnerEnv) (job : JobModel)
    (msg : String) (hclaim : env.claimed = some job)
    (herr : inner_result env job = Except.error msg) :
    (runner_iteration env).1.getLast? = some (DbCall.failJob job.id msg) ∧
    ((runner_iteration env).2 = IterOutcome.failedJob ∨
      (runner_iteration env).2 = IterOutcome.criticalSlept) := by
  unfold runner_iteration
  rw [hclaim]
  unfold inner_result at herr
  cases hreg : env.registry job.type with
  | none =>
    rw [hreg] at herr
    simp only [Except.error.injEq] at herr
    subst herr
    simp only [hreg]
    unfold fail_path
    cases hfr : env.fail_result <;> simp [hfr]
  | some handler =>
    rw [hreg] at herr
    simp only [bind, Except.bind] at herr
    cases hrun : handler job with
    | error e =>
      rw [hrun] at herr
      simp only [Except.error.injEq] at herr
      subst herr
      simp only [hreg, hrun]
      unfold fail_path
      cases hfr : env.fail_result <;> simp [hfr]
    | ok bundle =>
      rw [hrun] at herr
      cases hcommit : env.commit_result bundle with
      | ok u =>
        simp [hcommit] at herr
      | error e =>
        simp only [hcommit] at herr
        simp only [Except.error.injEq] at herr
        subst herr
        simp only [hreg, hrun, hcommit]
        unfold fail_path
        cases hfr : env.fail_result <;> simp [hfr]

def c8Job : JobModel :=
  { id := 5, project_id := 6, type := "generate", payload := {} }

def c8Env : RunnerEnv :=
  { claimed := some c8Job
  , registry := fun _ => none
  , commit_result := fun _ => Except.ok ()
  , fail_result := Except.ok () }

/-- Claim C8 witness: a claimed job of an unregistered type is converted
into a fail_job call with the resolution error message and the loop
continues. -/
theorem C8_loop_survives_exceptions_witness :
    c8Env.claimed = some c8Job ∧
    inner_result c8Env c8Job =
      Except.error "No handler for job type: generate" ∧
    ((runner_iteration c8Env).1.getLast? =
      some (DbCall.failJob c8Job.id "No handler for job type: generate") ∧
    ((runner_iteration c8Env).2 = IterOutcome.failedJob ∨
      (runner_iteration c8Env).2 = IterOutcome.criticalSlept)) :=
  ⟨rfl, rfl, C8_loop_survives_exceptions c8Env c8Job
    "No handler for job type: generate" rfl rfl⟩

def c9Core : KnowledgeCore :=
  { title := "K", summary := "about K"
  , concepts := [{ name := "k1", description := "d", importance_score := 8 }]
  , section_hierarchy := [], notes := [], definitions := [], examples := []
  , key_facts := [{ fact := "f1", category := "c" }] }

/-- Claim C9 witness: the passthrough instantiated at a concrete core. -/
theorem C9_merge_single_core_passthrough_witness :
    ∃ ctx, merge_cores [c9Core] = Except.ok ctx ∧
      ctx.all_concepts = (summarize_core c9Core).key_concepts ∧
      ctx.all_facts = (summarize_core c9Core).key_facts ∧
      ctx.source_count = 1 ∧
      ctx.conflict_notes = none :=
  C9_merge_single_core_passthrough c9Core

end BeePrepared







